import Mathlib

/-!
Verification development for `sltpwmt.c`, a command-line tool that adjusts
backlight brightness through sysfs and speaker/mic volume and mute through a
PulseAudio connection.

The C code is shallowly embedded: the OS and server interactions (open/read/
write results, the sink/source records a query delivers) become explicit
parameters, and each callback becomes a pure function from those inputs to
the list of effects (prints, mutation requests, loop-quit requests) it
performs, in source order.  Machine integers are modelled as `Int`; the few
divisions that occur act on nonnegative operands, where C and Lean division
agree.
-/

namespace Sltpwmt

/-! ## Sysfs accessor (`read_sysfs`, `write_sysfs`, lines 29-56) -/

/-- Outcome of one `read_sysfs(path, buf, buflen)` call.  `openOk` says
whether `open` succeeded; `readRet` is the value the `read(2)` syscall
returned when `open` succeeded (`-1` on a read error, otherwise the number of
bytes read, at most `buflen - 1`).  The result is `none` when `open` failed
(the function returns `-1` before touching `buf`), and otherwise
`some (termIdx, ret)`: the index `rdlen` at which the code stores the NUL
terminator (`buf[rdlen] = '\0'`, line 40, executed unconditionally after a
successful open), and the returned value `rdlen`. -/
def read_sysfs (openOk : Bool) (readRet : Int) : Option (Int × Int) :=
  if openOk = false then none else some (readRet, readRet)

/-- The terminator store `buf[i]` of `read_sysfs` is in bounds for a buffer
of length `buflen` exactly when `0 ≤ i < buflen`. -/
def term_store_in_bounds (buflen i : Int) : Prop := 0 ≤ i ∧ i < buflen

instance (buflen i : Int) : Decidable (term_store_in_bounds buflen i) := by
  unfold term_store_in_bounds; infer_instance

/-- Return value of `write_sysfs(path, buf, nbytes)` (lines 44-56): `-1` when
`open` fails; otherwise the raw return `wrlen` of the `write(2)` syscall is
returned unchanged — also when it is a short count `0 ≤ wrlen < nbytes`. -/
def write_sysfs (openOk : Bool) (wrlen : Int) : Int :=
  if openOk = false then -1 else wrlen

/-- Whether `write_sysfs` prints its failure diagnostic
(`perror("write_sysfs failed (write)")`, line 52, guarded by
`wrlen == -1 || wrlen < nbytes`; the open-failure path prints its own
diagnostic at line 47). -/
def write_sysfs_diag (openOk : Bool) (wrlen nbytes : Int) : Bool :=
  if openOk = false then true else (wrlen = -1 || wrlen < nbytes)

/-! ## Brightness controller (`do_brightness`, lines 58-89) -/

/-- Result of one `do_brightness` invocation.  `ret` is the value returned to
`main` (0 or 1, which becomes the process exit code); `wrote` is
`some v` when `write_sysfs` was invoked attempting to write the decimal text
of `v` to the brightness file, and `none` when no write call was made. -/
structure BrOutcome where
  ret : Int
  wrote : Option Int
  deriving DecidableEq, Repr

/-- `do_brightness(delta)` (lines 58-89), with the environment explicit:

* `maxRead` — the max-brightness file: `none` when `read_sysfs` returns `-1`
  (line 62), `some none` when the read succeeds but `sscanf "%d"` fails to
  parse the content (line 66), `some (some m)` when it parses `m`;
* `curRead` — likewise for the current-brightness file (lines 70-78);
* `wOpenOk`, `wRet` — the open outcome and `write(2)` return of the
  `write_sysfs` call on the brightness file (line 82).

On an unreadable max file the function returns 1 (line 63); on an
unparseable max file it substitutes `2147483647` (line 67) and continues; an
unreadable or unparseable current file returns 1 with no write (lines 70-78);
otherwise it clamps `br + delta` to `[0, max_br]` (lines 79-80) and writes
it, returning 1 only when `write_sysfs` returned exactly `-1` (line 82). -/
def do_brightness (maxRead curRead : Option (Option Int)) (wOpenOk : Bool)
    (wRet : Int) (delta : Int) : BrOutcome :=
  match maxRead with
  | none => ⟨1, none⟩
  | some maxParse =>
    let max_br : Int := match maxParse with
      | some m => m
      | none => 2147483647
    match curRead with
    | none => ⟨1, none⟩
    | some curParse =>
      match curParse with
      | none => ⟨1, none⟩
      | some br0 =>
        let br1 := br0 + delta
        let br := if br1 < 0 then 0 else if br1 > max_br then max_br else br1
        ⟨if write_sysfs wOpenOk wRet = -1 then 1 else 0, some br⟩

/-- The mathematical clamp the specification speaks of:
`clamp(x, 0, max) = max 0 (min x max)`. -/
def spec_clamp (x m : Int) : Int := max 0 (min x m)

/-! ## PulseAudio constants and library helpers

`PA_VOLUME_NORM` and `PA_VOLUME_MUTED` are fixed constants of the PulseAudio
API (`0x10000` and `0`); `PA_CLAMP_UNLIKELY`, `pa_cvolume_max`,
`pa_cvolume_scale` and `pa_volume_snprint` are modelled from the PulseAudio
library semantics the code relies on. -/

def PA_VOLUME_NORM : Int := 0x10000

def PA_VOLUME_MUTED : Int := 0

/-- `PA_CLAMP_UNLIKELY(x, low, high)` from pulse/gccmacro.h. -/
def PA_CLAMP_UNLIKELY (x low high : Int) : Int :=
  if x < low then low else if x > high then high else x

/-- A `pa_cvolume`: the per-channel volume list (`channels` is its length). -/
structure pa_cvolume where
  values : List Int
  deriving DecidableEq, Repr

/-- `pa_cvolume_max`: the maximum channel volume, starting from
`PA_VOLUME_MUTED = 0`. -/
def pa_cvolume_max (v : pa_cvolume) : Int :=
  v.values.foldl max PA_VOLUME_MUTED

/-- `pa_cvolume_set(v, channels, x)`: every channel set to `x`. -/
def pa_cvolume_set (n : Nat) (x : Int) : pa_cvolume :=
  ⟨List.replicate n x⟩

/-- `pa_cvolume_scale(v, m)`: rescale so the maximum channel becomes `m`,
preserving ratios (`values[i] * m / t` with `t` the old maximum); when the
old maximum is `≤ PA_VOLUME_MUTED` every channel is set to `m`. -/
def pa_cvolume_scale (v : pa_cvolume) (m : Int) : pa_cvolume :=
  let t := pa_cvolume_max v
  if t ≤ PA_VOLUME_MUTED then pa_cvolume_set v.values.length m
  else ⟨v.values.map (fun x => x * m / t)⟩

/-- `pa_volume_snprint`: the percentage rendering `v*100/NORM` (rounded)
followed by a percent sign. -/
def pa_volume_snprint (v : Int) : String :=
  toString ((v * 100 + PA_VOLUME_NORM / 2) / PA_VOLUME_NORM) ++ "%"

/-- The sink record a sink-info callback receives (the fields the code
reads: `index`, `mute`, `volume`). -/
structure pa_sink_info where
  index : Nat
  mute : Bool
  volume : pa_cvolume
  deriving DecidableEq, Repr

/-- The source record a source-info callback receives. -/
structure pa_source_info where
  index : Nat
  mute : Bool
  deriving DecidableEq, Repr

/-! ## Audio callbacks (`do_pulse_*`, lines 101-167)

Each callback is a pure function to the ordered list of effects it performs:
prints to stdout/stderr, mutation requests sent to the server, and
`pulse_quit(e)` loop-shutdown requests. -/

inductive PulseEffect where
  | printOut (s : String)
  | printErr (s : String)
  | setSinkMute (idx : Nat) (mute : Bool)
  | setSinkVolume (idx : Nat) (vol : pa_cvolume)
  | setSourceMute (idx : Nat) (mute : Bool)
  | quit (code : Int)
  deriving DecidableEq, Repr

/-- `do_pulse_success` (lines 101-104): the completion callback of every
mute-set and volume-set request.  It discards its `success` flag
(`(void)success`) and calls `pulse_quit(0)`. -/
def do_pulse_success (success : Int) : List PulseEffect :=
  [.quit 0]

/-- The volume computation of the `'v'` branch of `do_pulse_vs`
(lines 134-138) applied to the already-computed value
`v = pa_cvolume_max + pulse_arg`: snap to `PA_VOLUME_NORM` when strictly
between `NORM*98/100` and `NORM*102/100`, then
`PA_CLAMP_UNLIKELY(·, PA_VOLUME_MUTED, PA_VOLUME_NORM)`. -/
def volume_target (v : Int) : Int :=
  let snapped :=
    if v > PA_VOLUME_NORM * 98 / 100 ∧ v < PA_VOLUME_NORM * 102 / 100 then
      PA_VOLUME_NORM
    else v
  PA_CLAMP_UNLIKELY snapped PA_VOLUME_MUTED PA_VOLUME_NORM

/-- `do_pulse_vs` (lines 106-150): the sink-info callback, parametrised by
the globals `pulse_op` and `pulse_arg` and by the delivered record `i` (only
inspected when `eol = 0`; the C code asserts it is non-null there) and
end-of-list flag `eol`. -/
def do_pulse_vs (pulse_op : Char) (pulse_arg : Int) (i : pa_sink_info)
    (eol : Int) : List PulseEffect :=
  if eol < 0 then
    [.printErr ("pa_context_get_sink_info_by_name failed: " ++ toString eol),
     .quit 1]
  else if eol ≠ 0 then []
  else if pulse_op = 's' then
    let new_mute := !i.mute
    [.setSinkMute i.index new_mute,
     .printOut (if new_mute then "Speakers muted" else "Speakers on")]
  else if pulse_op = 'v' then
    if i.volume.values.length < 1 then [.quit 0]
    else
      let new_volume := volume_target (pa_cvolume_max i.volume + pulse_arg)
      [.setSinkVolume i.index (pa_cvolume_scale i.volume new_volume),
       .printOut ("Speakers " ++ pa_volume_snprint new_volume)]
  else
    [.printErr ("unexpected pulse op " ++ toString pulse_op ++ " in do_pulse_vs"),
     .quit 1]

/-- `do_pulse_m` (lines 152-167): the source-info callback (mic mute
toggle). -/
def do_pulse_m (i : pa_source_info) (eol : Int) : List PulseEffect :=
  if eol < 0 then
    [.printErr ("pa_context_get_source_info_by_name failed: " ++ toString eol),
     .quit 1]
  else if eol ≠ 0 then []
  else
    let new_mute := !i.mute
    [.setSourceMute i.index new_mute,
     .printOut (if new_mute then "Mic muted" else "Mic on")]

/-- The server honouring the first sink-mute mutation of an effect list:
how a `setSinkMute` request changes the sink's state. -/
def apply_sink_mute (i : pa_sink_info) : List PulseEffect → pa_sink_info
  | PulseEffect.setSinkMute _ m :: _ => { i with mute := m }
  | _ :: rest => apply_sink_mute i rest
  | [] => i

/-- The server honouring the first source-mute mutation of an effect list. -/
def apply_source_mute (i : pa_source_info) : List PulseEffect → pa_source_info
  | PulseEffect.setSourceMute _ m :: _ => { i with mute := m }
  | _ :: rest => apply_source_mute i rest
  | [] => i

/-- A concrete sink record used by witnesses. -/
def sink0 : pa_sink_info := ⟨3, false, ⟨[60000, 50000]⟩⟩

/-- A concrete source record used by witnesses. -/
def source0 : pa_source_info := ⟨5, false⟩

/-! ## Claim theorems -/

/-- Claim C1: for AdjustVolume, after adding the delta to the maximum channel
volume, a computed volume in the closed band `[98%, 102%]` of
`PA_VOLUME_NORM` yields exactly `PA_VOLUME_NORM`; a computed volume outside
that band yields its clamp to `[PA_VOLUME_MUTED, PA_VOLUME_NORM]`; the
result always lies in `[0, PA_VOLUME_NORM]` (clamped, never wrapped). -/
theorem c1_volume_snap_closed_band (v : Int) :
    (98 * PA_VOLUME_NORM ≤ 100 * v ∧ 100 * v ≤ 102 * PA_VOLUME_NORM →
      volume_target v = PA_VOLUME_NORM) ∧
    (¬ (98 * PA_VOLUME_NORM ≤ 100 * v ∧ 100 * v ≤ 102 * PA_VOLUME_NORM) →
      volume_target v = spec_clamp v PA_VOLUME_NORM) ∧
    PA_VOLUME_MUTED ≤ volume_target v ∧ volume_target v ≤ PA_VOLUME_NORM := by
  have h98 : PA_VOLUME_NORM * 98 / 100 = (64225 : Int) := by decide
  have h102 : PA_VOLUME_NORM * 102 / 100 = (66846 : Int) := by decide
  simp only [volume_target, PA_CLAMP_UNLIKELY, spec_clamp, h98, h102]
  simp only [PA_VOLUME_NORM, PA_VOLUME_MUTED]
  refine ⟨?_, ?_, ?_, ?_⟩ <;> split_ifs <;> omega

/-- Witness for C1: `65000` lies in the closed band and is snapped to
`PA_VOLUME_NORM`. -/
theorem c1_volume_snap_closed_band_witness :
    98 * PA_VOLUME_NORM ≤ 100 * 65000 ∧ 100 * 65000 ≤ 102 * PA_VOLUME_NORM ∧
    volume_target 65000 = PA_VOLUME_NORM :=
  ⟨by decide, by decide,
    (c1_volume_snap_closed_band 65000).1 ⟨by decide, by decide⟩⟩

/-- Counterexample to C2: a positive end-of-list code makes both info
callbacks return with an empty effect list — no `quit 0` (loop shutdown
with success) is requested, contrary to the claim. -/
theorem c2_positive_eol_no_quit :
    do_pulse_vs 's' 0 sink0 1 = [] ∧
    PulseEffect.quit 0 ∉ do_pulse_vs 's' 0 sink0 1 ∧
    do_pulse_m source0 1 = [] ∧
    PulseEffect.quit 0 ∉ do_pulse_m source0 1 := by
  refine ⟨rfl, ?_, rfl, ?_⟩ <;> simp [do_pulse_vs, do_pulse_m]

/-- Claim C2 (amended): a negative end-of-list code causes loop shutdown
with failure status (`quit 1`); a positive end-of-list code makes the
callback return with no effects at all — in particular no shutdown request
is issued, with or without a prior device record. -/
theorem c2_eol_handling (op : Char) (arg eol : Int) (i : pa_sink_info)
    (j : pa_source_info) :
    (eol < 0 → do_pulse_vs op arg i eol =
      [.printErr ("pa_context_get_sink_info_by_name failed: " ++ toString eol),
       .quit 1]) ∧
    (0 < eol → do_pulse_vs op arg i eol = []) ∧
    (eol < 0 → do_pulse_m j eol =
      [.printErr ("pa_context_get_source_info_by_name failed: " ++ toString eol),
       .quit 1]) ∧
    (0 < eol → do_pulse_m j eol = []) := by
  unfold do_pulse_vs do_pulse_m
  refine ⟨fun h => ?_, fun h => ?_, fun h => ?_, fun h => ?_⟩
  · rw [if_pos h]
  · rw [if_neg (by omega), if_pos (by omega)]
  · rw [if_pos h]
  · rw [if_neg (by omega), if_pos (by omega)]

/-- Witness for the amended C2 at concrete inputs `eol = -1` and `eol = 2`. -/
theorem c2_eol_handling_witness :
    do_pulse_vs 's' 0 sink0 (-1) =
      [.printErr ("pa_context_get_sink_info_by_name failed: " ++
        toString (-1 : Int)), .quit 1] ∧
    do_pulse_m source0 2 = [] :=
  ⟨(c2_eol_handling 's' 0 (-1) sink0 source0).1 (by decide),
   (c2_eol_handling 's' 0 2 sink0 source0).2.2.2 (by decide)⟩

/-- Counterexample to C3: with the max-brightness file unreadable
(`read_sysfs` returning `-1`), `do_brightness` returns 1 and attempts no
write — it fails rather than substituting `2147483647` and proceeding. -/
theorem c3_unreadable_max_fails :
    do_brightness none (some (some 100)) true 3 5 = ⟨1, none⟩ ∧
    (do_brightness none (some (some 100)) true 3 5).ret ≠ 0 := by
  exact ⟨rfl, by decide⟩

/-- Claim C3 (amended): when the max-brightness file is readable but its
content fails to parse as an integer, `do_brightness` substitutes
`2147483647` as the ceiling — behaving exactly as if the file had parsed to
`2147483647` — and proceeds to the write; when the file is unreadable, it
fails with result 1 and no write. -/
theorem c3_max_fallback (cur delta wRet : Int) (wOpenOk : Bool) :
    do_brightness (some none) (some (some cur)) wOpenOk wRet delta =
      do_brightness (some (some 2147483647)) (some (some cur)) wOpenOk wRet
        delta ∧
    (do_brightness (some none) (some (some cur)) wOpenOk wRet delta).wrote ≠
      none ∧
    (∀ curRead, do_brightness none curRead wOpenOk wRet delta = ⟨1, none⟩) :=
  ⟨rfl, by simp [do_brightness], fun _ => rfl⟩

/-- Claim C4: for a readable, parseable current/max pair with `0 ≤ m`, the
value `do_brightness` writes equals `clamp(cur + delta, 0, m)`, which always
lies in `[0, m]`; at `cur = 0` with negative delta it writes 0, and at
`cur = m` with positive delta it writes `m`. -/
theorem c4_brightness_clamp (cur m delta wRet : Int) (wOpenOk : Bool)
    (hm : 0 ≤ m) :
    (do_brightness (some (some m)) (some (some cur)) wOpenOk wRet delta).wrote
      = some (spec_clamp (cur + delta) m) ∧
    0 ≤ spec_clamp (cur + delta) m ∧ spec_clamp (cur + delta) m ≤ m ∧
    (cur = 0 → delta < 0 →
      (do_brightness (some (some m)) (some (some cur)) wOpenOk wRet
        delta).wrote = some 0) ∧
    (cur = m → 0 < delta →
      (do_brightness (some (some m)) (some (some cur)) wOpenOk wRet
        delta).wrote = some m) := by
  have hw : (do_brightness (some (some m)) (some (some cur)) wOpenOk wRet
      delta).wrote =
      some (if cur + delta < 0 then 0
        else if cur + delta > m then m else cur + delta) := rfl
  refine ⟨?_, ?_, ?_, ?_, ?_⟩
  · rw [hw]; simp only [spec_clamp, Option.some_inj]; split_ifs <;> omega
  · simp only [spec_clamp]; omega
  · simp only [spec_clamp]; omega
  · intro h0 hd; rw [hw]; simp only [Option.some_inj]; split_ifs <;> omega
  · intro h0 hd; rw [hw]; simp only [Option.some_inj]; split_ifs <;> omega

/-- Witness for C4 at `max = 255`, `cur = 200`, `delta = 100`. -/
theorem c4_brightness_clamp_witness :
    (0 : Int) ≤ 255 ∧
    (do_brightness (some (some 255)) (some (some 200)) true 3 100).wrote =
      some (spec_clamp (200 + 100) 255) :=
  ⟨by decide, (c4_brightness_clamp 200 255 100 3 true (by decide)).1⟩

/-- Claim C5 at the failing input: `write(2)` reports 2 of the 3 requested
bytes written.  `write_sysfs` prints its failure diagnostic yet returns the
short count `2`, not `-1`, and `do_brightness` — which only checks for
`-1` — returns 0 (success), contradicting the claim that a short write is
propagated as a nonzero exit. -/
theorem c5_short_write_reported_success :
    write_sysfs true 2 = 2 ∧ write_sysfs true 2 ≠ -1 ∧
    write_sysfs_diag true 2 3 = true ∧
    (do_brightness (some (some 255)) (some (some 200)) true 2 100).ret = 0 :=
  by decide

/-- Claim C6: whenever the current-brightness content fails to parse
(`curRead = some none`), `do_brightness` returns 1 and performs no write,
whatever the max-brightness read produced. -/
theorem c6_unparseable_current_no_write (maxRead : Option (Option Int))
    (wOpenOk : Bool) (wRet delta : Int) :
    do_brightness maxRead (some none) wOpenOk wRet delta = ⟨1, none⟩ := by
  cases maxRead with
  | none => rfl
  | some maxParse => rfl

/-- Claim C7: the mutation-completion callback requests loop shutdown with
success unconditionally, whatever `success` flag the server delivered. -/
theorem c7_success_callback_quits_zero (success : Int) :
    do_pulse_success success = [PulseEffect.quit 0] := rfl

/-- Claim C8: for AdjustVolume on a sink reporting zero channels, the
callback requests `quit 0` immediately and issues no volume-set request. -/
theorem c8_zero_channels_quit (arg : Int) (i : pa_sink_info)
    (h : i.volume.values.length < 1) :
    do_pulse_vs 'v' arg i 0 = [PulseEffect.quit 0] := by
  unfold do_pulse_vs
  rw [if_neg (by omega), if_neg (by omega), if_neg (by decide),
    if_pos rfl, if_pos h]

/-- Witness for C8: a sink with an empty channel volume list. -/
theorem c8_zero_channels_quit_witness :
    do_pulse_vs 'v' 7 ⟨1, false, ⟨[]⟩⟩ 0 = [PulseEffect.quit 0] :=
  c8_zero_channels_quit 7 ⟨1, false, ⟨[]⟩⟩ (by decide)

/-- Claim C9: toggling speaker (or mic) mute twice — each invocation
computing `!mute` from the state the previous mutation established —
returns the device to its original mute state. -/
theorem c9_double_toggle_identity (arg1 arg2 : Int) (i : pa_sink_info)
    (j : pa_source_info) :
    (apply_sink_mute (apply_sink_mute i (do_pulse_vs 's' arg1 i 0))
      (do_pulse_vs 's' arg2 (apply_sink_mute i (do_pulse_vs 's' arg1 i 0))
        0)).mute = i.mute ∧
    (apply_source_mute (apply_source_mute j (do_pulse_m j 0))
      (do_pulse_m (apply_source_mute j (do_pulse_m j 0)) 0)).mute = j.mute := by
  exact ⟨Bool.not_not i.mute, Bool.not_not j.mute⟩

/-- Claim C10 at the failing input: when `open` succeeds but `read(2)`
fails returning `-1`, `read_sysfs` still executes the terminator store at
index `rdlen = -1`, which is out of bounds for the 512-byte buffer
`do_brightness` passes — contradicting the claim that the store is always
in bounds. -/
theorem c10_terminator_store_underflow :
    read_sysfs true (-1) = some (-1, -1) ∧
    ¬ term_store_in_bounds 512 (-1) := by decide

end Sltpwmt
